import Mathlib

/-!
Shallow embedding of the recommendation predictor of the
`sentiment-review-predictor` app (file `src/utils/sentimentAnalysis.ts`).

JavaScript numbers that appear as written values (ratings, JSON numbers)
are modelled by `JNum`: a rational payload for finite values plus the three
non-finite values `NaN`, `Infinity`, `-Infinity`.  Values produced by
`Math.exp` arithmetic are modelled over the reals (`JsNumber`).  Strings
are modelled as lists of characters.  The single `fetch` of the
orchestrator is modelled by passing the outcome of the network call as an
explicit `FetchResult` argument; the thrown errors of the `try` block
become the `Except` error branch of `remoteAttempt`.
-/

namespace SentimentReview

/-- A JavaScript number in written form: finite (exact rational) or one of
the non-finite values. -/
inductive JNum where
  | finite (q : ℚ)
  | nan
  | inf
  | negInf
deriving DecidableEq, Repr

/-- A JavaScript number as produced by real-valued computation
(`Math.exp`, the sigmoid): finite real or non-finite. -/
inductive JsNumber where
  | finite (x : ℝ)
  | nan
  | inf
  | negInf

/-- Embed a written JavaScript number into the real-valued model. -/
def JNum.toJsNumber : JNum → JsNumber
  | .finite q => .finite (q : ℝ)
  | .nan => .nan
  | .inf => .inf
  | .negInf => .negInf

/-- JavaScript `<=` on numbers: false whenever `NaN` is involved,
otherwise the order with `-Infinity` least and `Infinity` greatest. -/
def JNum.jsLe : JNum → JNum → Bool
  | .nan, _ => false
  | _, .nan => false
  | .negInf, _ => true
  | _, .negInf => false
  | _, .inf => true
  | .inf, _ => false
  | .finite a, .finite b => decide (a ≤ b)

/-- The `RecommendationSource` union type of `sentimentAnalysis.ts`. -/
inductive RecommendationSource where
  | backend
  | fallback
deriving DecidableEq, Repr

/-- The `RecommendationResult` interface of `sentimentAnalysis.ts`:
`prediction` is the JavaScript number stored in the result (always 0 or 1
in practice), `confidence` is optional. -/
structure RecommendationResult where
  prediction : ℚ
  confidence : Option JsNumber
  source : RecommendationSource

/-- A character matched by the token regex `[a-z0-9]+`: a lowercase basic
latin letter or a digit. -/
def isTokenChar (c : Char) : Bool :=
  (decide ('a' ≤ c) && decide (c ≤ 'z')) || (decide ('0' ≤ c) && decide (c ≤ '9'))

/-- Extraction of the maximal runs of token characters, embedding
`.match(/[a-z0-9]+/g) ?? []`.  The accumulator holds the reversed current
run. -/
def tokenizeAux : List Char → List Char → List (List Char)
  | [], acc => if acc = [] then [] else [acc.reverse]
  | c :: cs, acc =>
    if isTokenChar c then tokenizeAux cs (c :: acc)
    else if acc = [] then tokenizeAux cs []
    else acc.reverse :: tokenizeAux cs []

/-- The token list of `fallbackPrediction`:
`(reviewText.toLowerCase().match(/[a-z0-9]+/g) ?? []).filter(Boolean)`. -/
def tokens (reviewText : List Char) : List (List Char) :=
  (tokenizeAux (reviewText.map Char.toLower) []).filter (fun t => !t.isEmpty)

/-- The `FALLBACK_POSITIVE_WORDS` lexicon. -/
def FALLBACK_POSITIVE_WORDS : List (List Char) :=
  ["amazing", "beautiful", "best", "comfortable", "excellent", "favorite",
   "great", "love", "perfect", "recommend", "stylish", "wonderful"].map String.data

/-- The `FALLBACK_NEGATIVE_WORDS` lexicon. -/
def FALLBACK_NEGATIVE_WORDS : List (List Char) :=
  ["awful", "bad", "cheap", "disappointing", "horrible", "poor",
   "return", "terrible", "uncomfortable", "waste", "worst"].map String.data

/-- The count `tokens.filter(token => FALLBACK_POSITIVE_WORDS.has(token)).length`. -/
def positiveScore (reviewText : List Char) : ℕ :=
  ((tokens reviewText).filter (fun t => FALLBACK_POSITIVE_WORDS.contains t)).length

/-- The count `tokens.filter(token => FALLBACK_NEGATIVE_WORDS.has(token)).length`. -/
def negativeScore (reviewText : List Char) : ℕ :=
  ((tokens reviewText).filter (fun t => FALLBACK_NEGATIVE_WORDS.contains t)).length

/-- The adjustment `Number.isFinite(rating) ? (rating - 3) / 1.5 : 0`. -/
def ratingAdjustment : JNum → ℚ
  | .finite q => (q - 3) / 1.5
  | .nan => 0
  | .inf => 0
  | .negInf => 0

/-- The score `positiveScore - negativeScore + ratingAdjustment`. -/
def totalScore (reviewText : List Char) (rating : JNum) : ℚ :=
  (positiveScore reviewText : ℚ) - (negativeScore reviewText : ℚ) + ratingAdjustment rating

/-- The sigmoid `1 / (1 + Math.exp(-totalScore))`. -/
noncomputable def probability (reviewText : List Char) (rating : JNum) : ℝ :=
  1 / (1 + Real.exp (-(totalScore reviewText rating : ℝ)))

/-- The heuristic scorer `fallbackPrediction` of `sentimentAnalysis.ts`. -/
noncomputable def fallbackPrediction (reviewText : List Char) (rating : JNum) :
    RecommendationResult :=
  let prediction : ℚ := if (0.5 : ℝ) ≤ probability reviewText rating then 1 else 0
  { prediction := prediction,
    confidence := some (.finite (if prediction = 1 then probability reviewText rating
      else 1 - probability reviewText rating)),
    source := .fallback }

/-- A scalar JSON / JavaScript value as it can appear in the `prediction`
and `confidence` fields of the parsed response body; an absent field reads
as `undefined`. -/
inductive JsValue where
  | undefined
  | null
  | bool (b : Bool)
  | num (n : JNum)
  | str (s : List Char)
deriving DecidableEq, Repr

/-- The parsed JSON response body, with the two fields the code reads. -/
structure JsonObject where
  prediction : JsValue
  confidence : JsValue
deriving DecidableEq, Repr

/-- The `fetch` response: `ok`, `status`, the text body, and the JSON
parse of the body (`none` when `response.json()` would throw). -/
structure JsResponse where
  ok : Bool
  status : ℕ
  bodyText : List Char
  json : Option JsonObject
deriving DecidableEq, Repr

/-- The outcome of the single `fetch` call: a transport-level rejection,
or a response. -/
inductive FetchResult where
  | netFail
  | resp (r : JsResponse)
deriving DecidableEq, Repr

/-- The failure kinds of the remote path (the `throw` sites of the `try`
block, plus the rejections of `fetch` and `response.json()`). -/
inductive RemoteError where
  | network
  | http (message : List Char)
  | malformed
  | invalidPrediction
deriving DecidableEq, Repr

/-- JavaScript string whitespace for `Number(string)` trimming: the
StrWhiteSpace characters (tab, line feed, vertical tab, form feed, CR,
space, no-break space, zero-width no-break space, the line and paragraph
separators, and the Unicode space-separator characters). -/
def isJsWhitespace (c : Char) : Bool :=
  (c == ' ') || (c == '\t') || (c == '\n') || (c == '\r') ||
  (c == '\x0b') || (c == '\x0c') || (c == '\u00A0') || (c == '\uFEFF') ||
  (c == '\u1680') || (decide ('\u2000' ≤ c) && decide (c ≤ '\u200A')) ||
  (c == '\u2028') || (c == '\u2029') || (c == '\u202F') || (c == '\u205F') ||
  (c == '\u3000')

/-- Strip leading and trailing whitespace, as `Number(string)` does. -/
def trimJs (l : List Char) : List Char :=
  ((l.dropWhile isJsWhitespace).reverse.dropWhile isJsWhitespace).reverse

/-- Decimal digit test. -/
def isDigitChar (c : Char) : Bool :=
  decide ('0' ≤ c) && decide (c ≤ '9')

/-- Value of a digit string, most significant first. -/
def digitsToNat (l : List Char) : ℕ :=
  l.foldl (fun a c => a * 10 + (c.toNat - 48)) 0

/-- Whether every character is a decimal digit. -/
def allDigits (l : List Char) : Bool :=
  l.all isDigitChar

/-- Digit value in radices up to 16 (decimal digits and the hexadecimal
letters in either case). -/
def hexDigitVal (c : Char) : Option ℕ :=
  if isDigitChar c then some (c.toNat - 48)
  else if decide ('a' ≤ c) && decide (c ≤ 'f') then some (c.toNat - 87)
  else if decide ('A' ≤ c) && decide (c ≤ 'F') then some (c.toNat - 55)
  else none

/-- Value of a digit string in the given radix; `none` when the string is
empty or holds a character that is not a digit of the radix. -/
def digitsToNatBase (base : ℕ) (l : List Char) : Option ℕ :=
  if l.isEmpty then none
  else
    l.foldl (fun acc c =>
      match acc, hexDigitVal c with
      | some a, some d => if d < base then some (a * base + d) else none
      | _, _ => none) (some 0)

/-- Split a candidate decimal literal at its exponent marker `e`/`E`. -/
def splitExponent (l : List Char) : List Char × Option (List Char) :=
  let m := l.takeWhile fun c => !(c == 'e' || c == 'E')
  match l.dropWhile (fun c => !(c == 'e' || c == 'E')) with
  | [] => (m, none)
  | _ :: rest => (m, some rest)

/-- Parse the signed integer that follows an exponent marker. -/
def parseExponent (l : List Char) : Option ℤ :=
  match l with
  | '+' :: ds => if allDigits ds && !ds.isEmpty then some (digitsToNat ds) else none
  | '-' :: ds => if allDigits ds && !ds.isEmpty then some (-(digitsToNat ds : ℤ)) else none
  | ds => if allDigits ds && !ds.isEmpty then some (digitsToNat ds) else none

/-- Parse an unsigned decimal mantissa, with an optional fractional part
(`"1"`, `"1."`, `".5"`, `"2.75"`). -/
def parseUnsigned (l : List Char) : Option ℚ :=
  let ip := l.takeWhile (fun c => !(c == '.'))
  match l.dropWhile (fun c => !(c == '.')) with
  | [] =>
    if allDigits ip && !ip.isEmpty then some (digitsToNat ip) else none
  | _ :: fp =>
    if allDigits ip && allDigits fp && (!ip.isEmpty || !fp.isEmpty) then
      some ((digitsToNat ip : ℚ) + (digitsToNat fp : ℚ) / 10 ^ fp.length)
    else none

/-- Parse an unsigned decimal literal with an optional exponent part
(`"1e0"`, `"2.5E+3"`, `".5e-1"`), as an exact rational; the float
rounding of the runtime is abstracted away, as everywhere in this
model. -/
def parseDecimal (l : List Char) : Option ℚ :=
  match splitExponent l with
  | (m, none) => parseUnsigned m
  | (m, some e) =>
    match parseUnsigned m, parseExponent e with
    | some q, some ex => some (q * 10 ^ ex)
    | _, _ => none

/-- Parse an unsigned magnitude: the literal `Infinity` or an unsigned
decimal literal with optional exponent. -/
def parseMagnitude (l : List Char) : Option JNum :=
  if l = "Infinity".data then some .inf
  else (parseDecimal l).map .finite

/-- Parse a trimmed, non-empty numeric string that is not radix-prefixed:
an optional sign followed by a decimal or infinity literal (a sign is not
permitted on the radix-prefixed forms, as in JavaScript). -/
def signedDecimal (l : List Char) : JNum :=
  match l with
  | '+' :: rest => (parseMagnitude rest).getD .nan
  | '-' :: rest =>
    match parseMagnitude rest with
    | some (.finite q) => .finite (-q)
    | some .inf => .negInf
    | _ => .nan
  | _ => (parseMagnitude l).getD .nan

/-- Parse a trimmed, non-empty numeric string: a `0x`/`0X` hexadecimal,
`0o`/`0O` octal or `0b`/`0B` binary integer literal, or a signed
decimal / infinity literal. -/
def stringBodyToNumber (l : List Char) : JNum :=
  match l with
  | '0' :: c :: rest =>
    if c == 'x' || c == 'X' then
      match digitsToNatBase 16 rest with
      | some n => .finite n
      | none => .nan
    else if c == 'o' || c == 'O' then
      match digitsToNatBase 8 rest with
      | some n => .finite n
      | none => .nan
    else if c == 'b' || c == 'B' then
      match digitsToNatBase 2 rest with
      | some n => .finite n
      | none => .nan
    else signedDecimal l
  | _ => signedDecimal l

/-- JavaScript `Number(string)`: trim the StrWhiteSpace characters, the
empty remainder is `0`, otherwise parse a radix-prefixed integer or a
signed decimal / infinity literal, `NaN` on failure. -/
def stringToNumber (s : List Char) : JNum :=
  let t := trimJs s
  if t.isEmpty then .finite 0 else stringBodyToNumber t

/-- JavaScript `Number(value)` on the modelled scalar values:
`Number(undefined) = NaN`, `Number(null) = 0`, booleans map to 0/1,
numbers are unchanged, strings are parsed. -/
def toNumber : JsValue → JNum
  | .undefined => .nan
  | .null => .finite 0
  | .bool b => .finite (if b then 1 else 0)
  | .num n => n
  | .str s => stringToNumber s

/-- The `try` block of `predictRecommendation`, as a result value over an
explicit fetch outcome: non-ok responses throw the body text or the
literal message `"Prediction request failed"`, a failed JSON parse
throws, a coerced `prediction` outside `{0,1}` throws, and otherwise the
backend result is built, with `confidence` kept only when the field holds
a JavaScript number. -/
def remoteAttempt (world : FetchResult) : Except RemoteError RecommendationResult :=
  match world with
  | .netFail => .error .network
  | .resp response =>
    if response.ok = false then
      .error (.http (if response.bodyText = [] then "Prediction request failed".data
        else response.bodyText))
    else
      match response.json with
      | none => .error .malformed
      | some data =>
        match toNumber data.prediction with
        | .finite q =>
          if q = 0 ∨ q = 1 then
            .ok { prediction := q,
                  confidence := match data.confidence with
                    | .num c => some c.toJsNumber
                    | _ => none,
                  source := .backend }
          else .error .invalidPrediction
        | _ => .error .invalidPrediction

/-- The orchestrator `predictRecommendation`: the remote result on
success, the heuristic result when the remote path throws. -/
noncomputable def predictRecommendation (reviewText : List Char) (rating : JNum)
    (world : FetchResult) : RecommendationResult :=
  match remoteAttempt world with
  | .ok res => res
  | .error _ => fallbackPrediction reviewText rating

theorem sigmoid_pos (x : ℝ) : 0 < 1 / (1 + Real.exp (-x)) := by positivity

theorem sigmoid_lt_one (x : ℝ) : 1 / (1 + Real.exp (-x)) < 1 := by
  have he := Real.exp_pos (-x)
  rw [div_lt_one (by positivity)]
  linarith

theorem half_le_sigmoid_iff (x : ℝ) : (0.5 : ℝ) ≤ 1 / (1 + Real.exp (-x)) ↔ 0 ≤ x := by
  have hd : (0 : ℝ) < 1 + Real.exp (-x) := by positivity
  rw [le_div_iff₀ hd]
  constructor
  · intro h
    have hexp : Real.exp (-x) ≤ 1 := by nlinarith
    have := Real.exp_le_one_iff.mp hexp
    linarith
  · intro h
    have hexp : Real.exp (-x) ≤ 1 := Real.exp_le_one_iff.mpr (by linarith)
    nlinarith

theorem half_lt_sigmoid_iff (x : ℝ) : (0.5 : ℝ) < 1 / (1 + Real.exp (-x)) ↔ 0 < x := by
  have hd : (0 : ℝ) < 1 + Real.exp (-x) := by positivity
  rw [lt_div_iff₀ hd]
  constructor
  · intro h
    have hexp : Real.exp (-x) < 1 := by nlinarith
    have := Real.exp_lt_one_iff.mp hexp
    linarith
  · intro h
    have hexp : Real.exp (-x) < 1 := Real.exp_lt_one_iff.mpr (by linarith)
    nlinarith

theorem sigmoid_at_zero : 1 / (1 + Real.exp (-(0 : ℝ))) = 1 / 2 := by
  simp [Real.exp_zero]
  norm_num

theorem probability_pos (text : List Char) (rating : JNum) :
    0 < probability text rating := sigmoid_pos _

theorem probability_lt_one (text : List Char) (rating : JNum) :
    probability text rating < 1 := sigmoid_lt_one _

theorem half_le_probability_iff (text : List Char) (rating : JNum) :
    (0.5 : ℝ) ≤ probability text rating ↔ 0 ≤ totalScore text rating := by
  rw [probability, half_le_sigmoid_iff]
  exact_mod_cast Iff.rfl

theorem half_lt_probability_iff (text : List Char) (rating : JNum) :
    (0.5 : ℝ) < probability text rating ↔ 0 < totalScore text rating := by
  rw [probability, half_lt_sigmoid_iff]
  exact_mod_cast Iff.rfl

theorem probability_of_totalScore_zero (text : List Char) (rating : JNum)
    (h : totalScore text rating = 0) : probability text rating = 1 / 2 := by
  rw [probability, h]
  push_cast
  exact sigmoid_at_zero

theorem fallbackPrediction_prediction_def (text : List Char) (rating : JNum) :
    (fallbackPrediction text rating).prediction =
      if (0.5 : ℝ) ≤ probability text rating then 1 else 0 := rfl

theorem fallbackPrediction_confidence_def (text : List Char) (rating : JNum) :
    (fallbackPrediction text rating).confidence =
      some (.finite (if (fallbackPrediction text rating).prediction = 1
        then probability text rating else 1 - probability text rating)) := rfl

theorem fallbackPrediction_prediction_eq (text : List Char) (rating : JNum) :
    (fallbackPrediction text rating).prediction =
      if 0 ≤ totalScore text rating then 1 else 0 := by
  rw [fallbackPrediction_prediction_def]
  by_cases h : 0 ≤ totalScore text rating
  · rw [if_pos h, if_pos ((half_le_probability_iff text rating).mpr h)]
  · rw [if_neg h, if_neg (fun hc => h ((half_le_probability_iff text rating).mp hc))]

theorem tokenizeAux_nil (l : List Char) (h : ∀ c ∈ l, isTokenChar c = false) :
    tokenizeAux l [] = [] := by
  induction l with
  | nil => rfl
  | cons c cs ih =>
    unfold tokenizeAux
    rw [h c (by simp)]
    simpa using ih fun d hd => h d (by simp [hd])

/-- C2: for every text and every rating, the fallback scorer returns a
prediction in {0,1} and a confidence equal to the probability mass of the
chosen class; the confidence is strictly greater than 0.5 and at most 1
whenever totalScore is nonzero, and equals exactly 0.5 when totalScore is
zero. -/
theorem fallback_confidence_mass (text : List Char) (rating : JNum) :
    ((fallbackPrediction text rating).prediction = 0 ∨
      (fallbackPrediction text rating).prediction = 1) ∧
    ∃ c : ℝ, (fallbackPrediction text rating).confidence = some (.finite c) ∧
      c = (if (fallbackPrediction text rating).prediction = 1
        then probability text rating else 1 - probability text rating) ∧
      (totalScore text rating ≠ 0 → 1 / 2 < c ∧ c ≤ 1) ∧
      (totalScore text rating = 0 → c = 1 / 2) := by
  have hpos := probability_pos text rating
  have hlt := probability_lt_one text rating
  by_cases h : (0.5 : ℝ) ≤ probability text rating
  · have hpred : (fallbackPrediction text rating).prediction = 1 := by
      rw [fallbackPrediction_prediction_def, if_pos h]
    refine ⟨Or.inr hpred, probability text rating, ?_, ?_, ?_, ?_⟩
    · rw [fallbackPrediction_confidence_def, hpred, if_pos rfl]
    · rw [hpred, if_pos rfl]
    · intro hne
      have ht : 0 < totalScore text rating :=
        lt_of_le_of_ne ((half_le_probability_iff text rating).mp h) (Ne.symm hne)
      have h05 := (half_lt_probability_iff text rating).mpr ht
      exact ⟨by linarith, le_of_lt hlt⟩
    · intro hz
      exact probability_of_totalScore_zero text rating hz
  · have hpred : (fallbackPrediction text rating).prediction = 0 := by
      rw [fallbackPrediction_prediction_def, if_neg h]
    refine ⟨Or.inl hpred, 1 - probability text rating, ?_, ?_, ?_, ?_⟩
    · rw [fallbackPrediction_confidence_def, hpred]
      norm_num
    · rw [hpred]
      norm_num
    · intro _
      constructor
      · have h05 := lt_of_not_le h
        linarith
      · linarith
    · intro hz
      exact absurd (le_of_eq (probability_of_totalScore_zero text rating hz).symm)
        fun hc => h (by linarith)

/-- C2 witness: at the review text `great` with rating 5 the total score
is nonzero and the confidence lies in (1/2, 1]. -/
theorem fallback_confidence_mass_witness :
    ∃ c : ℝ, (fallbackPrediction "great".data (.finite 5)).confidence = some (.finite c) ∧
      1 / 2 < c ∧ c ≤ 1 := by
  obtain ⟨hp, c, hc, hcdef, hne, hz⟩ := fallback_confidence_mass "great".data (.finite 5)
  refine ⟨c, hc, hne ?_⟩
  have h1 : positiveScore "great".data = 1 := by decide
  have h2 : negativeScore "great".data = 0 := by decide
  norm_num [totalScore, h1, h2, ratingAdjustment]

/-- C3: the fallback scorer is total: every input, including the empty
string, punctuation-only text and non-finite ratings, yields a
well-formed result, and the rating adjustment is `(rating - 3) / 1.5` for
finite ratings and exactly 0 for the three non-finite ones. -/
theorem fallback_total (text : List Char) (rating : JNum) :
    ((fallbackPrediction text rating).prediction = 0 ∨
      (fallbackPrediction text rating).prediction = 1) ∧
    (fallbackPrediction text rating).source = .fallback ∧
    (∃ c : ℝ, (fallbackPrediction text rating).confidence = some (.finite c)) ∧
    (∀ q : ℚ, ratingAdjustment (.finite q) = (q - 3) / 1.5) ∧
    ratingAdjustment .nan = 0 ∧ ratingAdjustment .inf = 0 ∧
    ratingAdjustment .negInf = 0 := by
  refine ⟨?_, rfl, ?_, fun q => rfl, rfl, rfl, rfl⟩
  · rw [fallbackPrediction_prediction_eq]
    by_cases h : 0 ≤ totalScore text rating
    · exact Or.inr (if_pos h)
    · exact Or.inl (if_neg h)
  · exact ⟨_, fallbackPrediction_confidence_def text rating⟩

/-- C6 counterexample: with empty text, rating 4 is at most rating
Infinity in the JavaScript order, yet the total score at Infinity (whose
adjustment is 0) is strictly below the total score at 4. -/
theorem totalScore_not_monotone_counterexample :
    JNum.jsLe (.finite 4) .inf = true ∧
    totalScore [] .inf < totalScore [] (.finite 4) := by
  constructor
  · decide
  · have h1 : positiveScore ([] : List Char) = 0 := by decide
    have h2 : negativeScore ([] : List Char) = 0 := by decide
    norm_num [totalScore, h1, h2, ratingAdjustment]

/-- C6 amended: holding the text fixed, increasing a finite rating never
decreases the total score. -/
theorem totalScore_monotone_finite (text : List Char) (q₁ q₂ : ℚ) (h : q₁ ≤ q₂) :
    totalScore text (.finite q₁) ≤ totalScore text (.finite q₂) := by
  unfold totalScore ratingAdjustment
  have h15 : (0 : ℚ) < 1.5 := by norm_num
  have := (div_le_div_iff_of_pos_right h15).mpr (sub_le_sub_right h 3)
  linarith

/-- C6 witness: the monotonicity instance from rating 2 to rating 5 with
empty text. -/
theorem totalScore_monotone_finite_witness :
    totalScore [] (.finite 2) ≤ totalScore [] (.finite 5) :=
  totalScore_monotone_finite [] 2 5 (by norm_num)

/-- C7: the fallback prediction is 1 exactly when the sigmoid probability
is at least 0.5, equivalently when the total score is nonnegative, and 0
otherwise; the exact tie at empty text with rating 3 (total score 0)
resolves to prediction 1. -/
theorem fallback_threshold (text : List Char) (rating : JNum) :
    ((fallbackPrediction text rating).prediction = 1 ↔
      (0.5 : ℝ) ≤ probability text rating) ∧
    ((fallbackPrediction text rating).prediction = 1 ↔
      0 ≤ totalScore text rating) ∧
    ((fallbackPrediction text rating).prediction = 0 ↔
      ¬ 0 ≤ totalScore text rating) ∧
    totalScore [] (.finite 3) = 0 ∧
    (fallbackPrediction [] (.finite 3)).prediction = 1 := by
  have hz : totalScore [] (.finite 3) = 0 := by
    have h1 : positiveScore ([] : List Char) = 0 := by decide
    have h2 : negativeScore ([] : List Char) = 0 := by decide
    norm_num [totalScore, h1, h2, ratingAdjustment]
  have key : ∀ (t : List Char) (r : JNum),
      ((fallbackPrediction t r).prediction = 1 ↔ 0 ≤ totalScore t r) := by
    intro t r
    rw [fallbackPrediction_prediction_eq]
    by_cases h : 0 ≤ totalScore t r
    · simp [h]
    · simp [h]
  refine ⟨?_, key text rating, ?_, hz, (key [] (.finite 3)).mpr (le_of_eq hz.symm)⟩
  · rw [fallbackPrediction_prediction_def]
    by_cases h : (0.5 : ℝ) ≤ probability text rating
    · simp [h]
    · simp [h]
  · rw [fallbackPrediction_prediction_eq]
    by_cases h : 0 ≤ totalScore text rating
    · simp [h]
    · simp [h]

/-- C8: keyword matching is case-insensitive: texts equal after
lowercasing produce identical positive and negative scores, and text all
of whose characters are non-alphanumeric even after lowercasing yields an
empty token sequence. -/
theorem scores_case_insensitive (t₁ t₂ : List Char)
    (h : t₁.map Char.toLower = t₂.map Char.toLower)
    (p : List Char) (hp : ∀ c ∈ p, isTokenChar (Char.toLower c) = false) :
    positiveScore t₁ = positiveScore t₂ ∧
    negativeScore t₁ = negativeScore t₂ ∧
    tokens p = [] := by
  refine ⟨?_, ?_, ?_⟩
  · unfold positiveScore tokens
    rw [h]
  · unfold negativeScore tokens
    rw [h]
  · unfold tokens
    rw [tokenizeAux_nil (p.map Char.toLower) ?_]
    · rfl
    · intro c hc
      obtain ⟨d, hd, rfl⟩ := List.mem_map.mp hc
      exact hp d hd

/-- C8 witness: the uppercase and lowercase spellings of `amazing` score
identically, and a punctuation-only text has no tokens. -/
theorem scores_case_insensitive_witness :
    positiveScore "AMAZING".data = positiveScore "amazing".data ∧
    negativeScore "AMAZING".data = negativeScore "amazing".data ∧
    tokens "!!!".data = [] :=
  scores_case_insensitive "AMAZING".data "amazing".data (by decide)
    "!!!".data (by decide)

/-- C9: the fallback scorer is deterministic: two invocations with equal
inputs return equal prediction, confidence and source. -/
theorem fallback_deterministic (t₁ t₂ : List Char) (r₁ r₂ : JNum)
    (ht : t₁ = t₂) (hr : r₁ = r₂) :
    (fallbackPrediction t₁ r₁).prediction = (fallbackPrediction t₂ r₂).prediction ∧
    (fallbackPrediction t₁ r₁).confidence = (fallbackPrediction t₂ r₂).confidence ∧
    (fallbackPrediction t₁ r₁).source = (fallbackPrediction t₂ r₂).source := by
  subst ht
  subst hr
  exact ⟨rfl, rfl, rfl⟩

/-- C9 witness: the determinism instance at the text `ok` with rating
3. -/
theorem fallback_deterministic_witness :
    (fallbackPrediction "ok".data (.finite 3)).prediction =
      (fallbackPrediction "ok".data (.finite 3)).prediction ∧
    (fallbackPrediction "ok".data (.finite 3)).confidence =
      (fallbackPrediction "ok".data (.finite 3)).confidence ∧
    (fallbackPrediction "ok".data (.finite 3)).source =
      (fallbackPrediction "ok".data (.finite 3)).source :=
  fallback_deterministic "ok".data "ok".data (.finite 3) (.finite 3) rfl rfl

theorem remoteAttempt_ok_source (world : FetchResult) (res : RecommendationResult)
    (h : remoteAttempt world = .ok res) : res.source = .backend := by
  unfold remoteAttempt at h
  repeat' split at h
  all_goals simp_all
  all_goals subst h
  all_goals rfl

/-- C1: the orchestrator is a total failover: when the remote attempt
succeeds it returns the remote result unchanged, whose source is backend,
and on any remote failure it returns the fallback scorer result, whose
source is fallback. -/
theorem orchestrator_failover (text : List Char) (rating : JNum)
    (world : FetchResult) :
    (∀ res, remoteAttempt world = .ok res →
      predictRecommendation text rating world = res ∧
      res.source = .backend) ∧
    (∀ e, remoteAttempt world = .error e →
      predictRecommendation text rating world = fallbackPrediction text rating ∧
      (predictRecommendation text rating world).source = .fallback) := by
  constructor
  · intro res hres
    refine ⟨?_, remoteAttempt_ok_source world res hres⟩
    unfold predictRecommendation
    rw [hres]
  · intro e he
    have hpr : predictRecommendation text rating world = fallbackPrediction text rating := by
      unfold predictRecommendation
      rw [he]
    refine ⟨hpr, ?_⟩
    rw [hpr]
    rfl

/-- C1 witness: a successful response carrying prediction 1 is returned
unchanged with source backend, and a network rejection yields the
fallback result with source fallback. -/
theorem orchestrator_failover_witness :
    (predictRecommendation [] (.finite 3)
        (.resp ⟨true, 200, [], some ⟨.num (.finite 1), .undefined⟩⟩) =
      ⟨1, none, .backend⟩ ∧
      (⟨1, none, .backend⟩ : RecommendationResult).source = .backend) ∧
    (predictRecommendation [] (.finite 3) .netFail = fallbackPrediction [] (.finite 3) ∧
      (predictRecommendation [] (.finite 3) .netFail).source = .fallback) :=
  ⟨(orchestrator_failover [] (.finite 3)
      (.resp ⟨true, 200, [], some ⟨.num (.finite 1), .undefined⟩⟩)).1
      ⟨1, none, .backend⟩ rfl,
   (orchestrator_failover [] (.finite 3) .netFail).2 .network rfl⟩

/-- C4: the remote client coerces the prediction field with JavaScript
Number, accepting numeric and numeric-string encodings (the strings `1`,
`1e0`, `0x1` and no-break-space `1` all coerce to 1, and numbers pass
through), and whenever the coerced value is neither 0 nor 1 the remote
path fails and the orchestrator returns the fallback result with source
fallback. -/
theorem remote_validation (text : List Char) (rating : JNum) (status : ℕ)
    (bt : List Char) (data : JsonObject)
    (h0 : toNumber data.prediction ≠ .finite 0)
    (h1 : toNumber data.prediction ≠ .finite 1) :
    toNumber (.str ['1']) = .finite 1 ∧
    toNumber (.str ['1', 'e', '0']) = .finite 1 ∧
    toNumber (.str ['0', 'x', '1']) = .finite 1 ∧
    toNumber (.str ['\u00A0', '1']) = .finite 1 ∧
    (∀ n : JNum, toNumber (.num n) = n) ∧
    remoteAttempt (.resp ⟨true, status, bt, some data⟩) = .error .invalidPrediction ∧
    predictRecommendation text rating (.resp ⟨true, status, bt, some data⟩) =
      fallbackPrediction text rating ∧
    (predictRecommendation text rating (.resp ⟨true, status, bt, some data⟩)).source =
      .fallback := by
  have herr : remoteAttempt (.resp ⟨true, status, bt, some data⟩) =
      .error .invalidPrediction := by
    unfold remoteAttempt
    simp only [if_neg (by simp : ¬(true = false))]
    match hp : toNumber data.prediction with
    | .finite q =>
      have hq : ¬(q = 0 ∨ q = 1) := by
        rintro (rfl | rfl)
        · exact h0 hp
        · exact h1 hp
      simp [hq]
    | .nan => rfl
    | .inf => rfl
    | .negInf => rfl
  have hpr : predictRecommendation text rating (.resp ⟨true, status, bt, some data⟩) =
      fallbackPrediction text rating := by
    unfold predictRecommendation
    rw [herr]
  have h1e0 : toNumber (.str ['1', 'e', '0']) = .finite 1 := by
    have h : toNumber (.str ['1', 'e', '0']) =
        .finite (((1 : ℕ) : ℚ) * 10 ^ (((0 : ℕ) : ℤ))) := rfl
    rw [h]
    norm_num
  refine ⟨by decide, h1e0, by decide, by decide, fun n => rfl, herr, hpr, ?_⟩
  rw [hpr]
  rfl

/-- C4 witness: a successful response carrying prediction 2 triggers the
fallback, whose source is fallback. -/
theorem remote_validation_witness :
    toNumber (.str ['1']) = .finite 1 ∧
    toNumber (.str ['1', 'e', '0']) = .finite 1 ∧
    toNumber (.str ['0', 'x', '1']) = .finite 1 ∧
    toNumber (.str ['\u00A0', '1']) = .finite 1 ∧
    (∀ n : JNum, toNumber (.num n) = n) ∧
    remoteAttempt (.resp ⟨true, 200, [], some ⟨.num (.finite 2), .undefined⟩⟩) =
      .error .invalidPrediction ∧
    predictRecommendation [] (.finite 3)
        (.resp ⟨true, 200, [], some ⟨.num (.finite 2), .undefined⟩⟩) =
      fallbackPrediction [] (.finite 3) ∧
    (predictRecommendation [] (.finite 3)
        (.resp ⟨true, 200, [], some ⟨.num (.finite 2), .undefined⟩⟩)).source =
      .fallback :=
  remote_validation [] (.finite 3) 200 [] ⟨.num (.finite 2), .undefined⟩
    (by decide) (by decide)

/-- C5 counterexample: on a non-ok response with empty body the thrown
message is the fixed string `Prediction request failed`; it is identical
for statuses 500 and 404 and contains no digit at all, so it does not
carry the numeric HTTP status. -/
theorem http_error_message_counterexample :
    remoteAttempt (.resp ⟨false, 500, [], none⟩) =
      .error (.http "Prediction request failed".data) ∧
    remoteAttempt (.resp ⟨false, 500, [], none⟩) =
      remoteAttempt (.resp ⟨false, 404, [], none⟩) ∧
    ("Prediction request failed".data.all fun c => !c.isDigit) = true :=
  ⟨rfl, rfl, by decide⟩

/-- C5 amended: on a non-success HTTP status the remote path fails with a
message equal to the response body text, or, when the body is empty, the
fixed generic message `Prediction request failed`, which does not carry
the numeric status. -/
theorem http_error_message (status : ℕ) (body : List Char) (js : Option JsonObject) :
    remoteAttempt (.resp ⟨false, status, body, js⟩) =
      .error (.http (if body = [] then "Prediction request failed".data else body)) := rfl

/-- C10: a parseable successful response whose prediction field is null,
false, true or the empty string coerces to exactly 0 or 1 and is accepted
as a backend result, while an absent (undefined) prediction coerces to
NaN and triggers the fallback. -/
theorem coercion_edge_cases (text : List Char) (rating : JNum) (status : ℕ)
    (bt : List Char) :
    toNumber .null = .finite 0 ∧
    toNumber (.bool false) = .finite 0 ∧
    toNumber (.bool true) = .finite 1 ∧
    toNumber (.str []) = .finite 0 ∧
    toNumber .undefined = .nan ∧
    predictRecommendation text rating (.resp ⟨true, status, bt, some ⟨.null, .undefined⟩⟩) =
      ⟨0, none, .backend⟩ ∧
    predictRecommendation text rating
        (.resp ⟨true, status, bt, some ⟨.bool false, .undefined⟩⟩) =
      ⟨0, none, .backend⟩ ∧
    predictRecommendation text rating
        (.resp ⟨true, status, bt, some ⟨.bool true, .undefined⟩⟩) =
      ⟨1, none, .backend⟩ ∧
    predictRecommendation text rating
        (.resp ⟨true, status, bt, some ⟨.str [], .undefined⟩⟩) =
      ⟨0, none, .backend⟩ ∧
    predictRecommendation text rating
        (.resp ⟨true, status, bt, some ⟨.undefined, .undefined⟩⟩) =
      fallbackPrediction text rating ∧
    (predictRecommendation text rating
        (.resp ⟨true, status, bt, some ⟨.undefined, .undefined⟩⟩)).source =
      .fallback :=
  ⟨rfl, rfl, rfl, rfl, rfl, rfl, rfl, rfl, rfl, rfl, rfl⟩

end SentimentReview
